import Mathlib

/-!
Verification of the Documentarist command/configuration subsystem.

This file gives a shallow embedding of the parts of the repository that the
dispatch, configuration and UI claims speak about:

  * `src/documentarist/config.py` — the `ConfigStorage` class (backed by a
    Python `ConfigParser`), the `ConfigCommand.auth` handler and the
    `credentials_filename` helper;
  * `src/documentarist/command.py` — `Command._invoke_with`;
  * `src/documentarist/__main__.py` — the exception-to-exit-code mapping in
    `Main.__init__`, together with `src/common/exit_codes.py`;
  * `src/documentarist/ui.py` — the message queueing / flushing logic of the
    `UI` class.

Python's `ConfigParser` is modelled as an ordered association structure:
an ordered list of sections, each an ordered list of key/value pairs, which
is exactly the observable state the source manipulates (insertion order is
what `ConfigParser` preserves and what `write` emits).  File-system effects
are modelled by explicit state: the contents of the active configuration
file and a path→contents map for other files.
-/

namespace Documentarist

/-- Parsed INI data: ordered sections, each an ordered key/value list.
This is the shape `ConfigParser.read_dict` consumes and the shape the
in-memory parser state takes. -/
abbrev IniData := List (String × List (String × String))

/-- Look a key up in an ordered key/value list (first match wins, as in a
Python dict that never holds duplicate keys). -/
def findVal : List (String × String) → String → Option String
  | [], _ => none
  | (k', v') :: rest, k => if k' = k then some v' else findVal rest k

/-- Update a key in an ordered key/value list: an existing key keeps its
position and gets the new value, a new key is appended at the end.  This is
how a Python `dict` (and hence a `ConfigParser` section) behaves under
`d[k] = v`. -/
def setKV : List (String × String) → String → String → List (String × String)
  | [], k, v => [(k, v)]
  | (k', v') :: rest, k, v =>
    if k' = k then (k', v) :: rest else (k', v') :: setKV rest k v

/-- Find an entry in an ordered association list keyed by strings (used
for sections of parsed INI data and for the modelled file systems). -/
def findSec {α : Type} : List (String × α) → String → Option α
  | [], _ => none
  | (s', kvs) :: rest, s => if s' = s then some kvs else findSec rest s

/-- Set one value: an existing section is updated in place, a missing
section is created at the end (as `ConfigParser.read_dict` does via
`add_section`). -/
def setSec : IniData → String → String → String → IniData
  | [], sec, k, v => [(sec, [(k, v)])]
  | (s', kvs) :: rest, sec, k, v =>
    if s' = sec then (s', setKV kvs k v) :: rest
    else (s', kvs) :: setSec rest sec k v

/-- The in-memory state of the class-level `ConfigStorage._config` parser
(`config.py` line 78): ordered sections of ordered key/value pairs. -/
structure ConfigParser where
  sections : IniData
deriving DecidableEq, Repr

/-- Value of `parser[section][name]`, as an `Option`: `none` when the
section is missing or the key is missing from it (the source's
`name in self._config[section]` membership test is `(getOpt ...).isSome`). -/
def ConfigParser.getOpt (cfg : ConfigParser) (sec k : String) : Option String :=
  match findSec cfg.sections sec with
  | some kvs => findVal kvs k
  | none => none

/-- `parser[section][name] = value`, creating the section when absent. -/
def ConfigParser.setValue (cfg : ConfigParser) (sec k v : String) : ConfigParser :=
  ⟨setSec cfg.sections sec k v⟩

/-- `ConfigParser.read_dict`: overlay the given data onto the parser state,
section by section and key by key, overwriting existing values and creating
missing sections/keys.  (`read_dict` str()-converts values; the model's data
already carries the string forms.) -/
def ConfigParser.read_dict (cfg : ConfigParser) (data : IniData) : ConfigParser :=
  data.foldl (fun c secEntry =>
    secEntry.2.foldl (fun c' kv => c'.setValue secEntry.1 kv.1 kv.2) c) cfg

/-- Serialization of one section, as `ConfigParser.write` emits it:
a `[section]` header, one `key = value` line per entry, then a blank line. -/
def writeSection (secEntry : String × List (String × String)) : String :=
  "[" ++ secEntry.1 ++ "]\n"
    ++ String.join (secEntry.2.map (fun kv => kv.1 ++ " = " ++ kv.2 ++ "\n"))
    ++ "\n"

/-- `ConfigParser.write`: the full serialized file contents, a pure
function of the parser state. -/
def ConfigParser.write (cfg : ConfigParser) : String :=
  String.join (cfg.sections.map writeSection)

/-- Key lookup after `setKV`. -/
theorem findVal_setKV (kvs : List (String × String)) (k k' v : String) :
    findVal (setKV kvs k' v) k = if k = k' then some v else findVal kvs k := by
  induction kvs with
  | nil =>
    by_cases h : k = k'
    · subst h; simp [setKV, findVal]
    · have h' : ¬ k' = k := fun hk => h hk.symm
      simp [setKV, findVal, h, h']
  | cons hd tl ih =>
    obtain ⟨a, b⟩ := hd
    by_cases ha : a = k'
    · subst ha
      by_cases hk : k = a
      · subst hk; simp [setKV, findVal]
      · have hk' : ¬ a = k := fun h => hk h.symm
        simp [setKV, findVal, hk, hk']
    · by_cases hak : a = k
      · subst hak
        simp [setKV, findVal, ha]
      · simp [setKV, findVal, ha, hak, ih]

/-- Section lookup after `setSec`. -/
theorem findSec_setSec (d : IniData) (s sec k v : String) :
    findSec (setSec d sec k v) s =
      if s = sec then
        some (setKV ((findSec d sec).getD []) k v)
      else findSec d s := by
  induction d with
  | nil =>
    by_cases h : s = sec
    · subst h; simp [setSec, findSec, setKV]
    · have h' : ¬ sec = s := fun hk => h hk.symm
      simp [setSec, findSec, h, h']
  | cons hd tl ih =>
    obtain ⟨a, kvs⟩ := hd
    by_cases ha : a = sec
    · subst ha
      by_cases hs : s = a
      · subst hs; simp [setSec, findSec]
      · have hs' : ¬ a = s := fun h => hs h.symm
        simp [setSec, findSec, hs, hs']
    · by_cases has : a = s
      · subst has
        simp [setSec, findSec, ha]
      · simp [setSec, findSec, ha, has, ih]

/-- The fundamental read-after-write law for the parser state: setting
`(sec', k')` changes exactly that entry and nothing else. -/
theorem getOpt_setValue (cfg : ConfigParser) (sec' k' v sec k : String) :
    (cfg.setValue sec' k' v).getOpt sec k =
      if sec = sec' ∧ k = k' then some v else cfg.getOpt sec k := by
  unfold ConfigParser.setValue ConfigParser.getOpt
  simp only [findSec_setSec]
  by_cases hs : sec = sec'
  · subst hs
    cases hsec : findSec cfg.sections sec with
    | none =>
      by_cases hk : k = k'
      · subst hk; simp [hsec, findVal_setKV, findVal]
      · have hk' : ¬ k' = k := fun h => hk h.symm
        simp [hsec, findVal_setKV, findVal, hk, hk']
    | some kvs => simp [hsec, findVal_setKV]
  · simp [hs]

/-- Does the second character list start with the first?  (Helper for the
string predicates below, kept in explicit list form so that concrete
instances evaluate by `decide`.) -/
def charListStarts : List Char → List Char → Bool
  | [], _ => true
  | _ :: _, [] => false
  | a :: as, b :: bs => a = b && charListStarts as bs

/-- Python `str.endswith`: does `s` end with `tail`? -/
def strEndsWith (s tail : String) : Bool :=
  charListStarts tail.data.reverse s.data.reverse

/-- Python `str.lower` for the ASCII names this code handles. -/
def strToLower (s : String) : String :=
  ⟨s.data.map Char.toLower⟩

/-- `DEFAULT_SETTINGS` from `config.py` lines 34-50, with values in the
string form `ConfigParser.read_dict` stores them in (`str(False) = "False"`). -/
def DEFAULT_SETTINGS : IniData :=
  [("documentarist",
     [("quiet", "False"), ("debug", "False"),
      ("basename", "document"), ("outputdir", ".")]),
   ("google", [("creds_file", "")]),
   ("microsoft", [("creds_file", "")]),
   ("amazon", [("creds_file", "")])]

/-- `CONFIG_DIR` (`config.py` line 56) is `user_config_dir(...)`, a
platform-dependent per-user directory.  It is modelled as a fixed path; no
theorem below depends on its actual value, only on paths being formed by
joining it with a file name. -/
def CONFIG_DIR : String := "/home/user/.config/documentarist"

/-- `SETTINGS_FILE` from `config.py` line 62. -/
def SETTINGS_FILE : String := "documentarist.ini"

/-- `CREDENTIALS_FILES` from `config.py` lines 65-69. -/
def CREDENTIALS_FILES : List (String × String) :=
  [("amazon", "amazon_credentials.json"),
   ("google", "google_credentials.json"),
   ("microsoft", "microsoft_credentials.json")]

/-- `credentials_filename` (`config.py` lines 321-323): dictionary lookup
guarded by an assertion that the service is known; the failed assertion is
modelled by `none`. -/
def credentials_filename (service : String) : Option String :=
  findVal CREDENTIALS_FILES service

namespace ConfigStorage

/-- `ConfigStorage._config_file` (`config.py` line 79):
`join(CONFIG_DIR, SETTINGS_FILE)`. -/
def config_file : String := CONFIG_DIR ++ "/" ++ SETTINGS_FILE

/-- `ConfigStorage.__init__` (`config.py` lines 81-84): every construction
of a `ConfigStorage` instance runs `read_dict(DEFAULT_SETTINGS)` on the
*class-level* parser `ConfigStorage._config` (line 78), which is shared by
all instances; the model therefore threads that one shared parser state. -/
def init (cfg : ConfigParser) : ConfigParser :=
  cfg.read_dict DEFAULT_SETTINGS

/-- `ConfigParser.read(path)` under a file system `fs` mapping paths to
already-parsed INI data: an existing file is overlaid onto the state key by
key; a missing (or unreadable) path is silently skipped, exactly as
Python's `ConfigParser.read` does. -/
def readPath (fs : List (String × IniData)) (cfg : ConfigParser) (path : String) :
    ConfigParser :=
  match findSec fs path with
  | some data => cfg.read_dict data
  | none => cfg

/-- `ConfigStorage.load` (`config.py` lines 87-98).  Returns the new parser
state together with the path handed to `ConfigParser.read` (second
component), which records which file the call tried to read.  The source
has no error path at all: when the explicit `file` is untruthy or does not
exist, control falls into the `else` branch and reads the default
`_config_file`. -/
def load (fs : List (String × IniData)) (file : Option String) (cfg : ConfigParser) :
    ConfigParser × String :=
  match file with
  | some f =>
    if f ≠ "" ∧ (findSec fs f).isSome then (readPath fs cfg f, f)
    else (readPath fs cfg config_file, config_file)
  | none => (readPath fs cfg config_file, config_file)

end ConfigStorage

/-- The mutable state the `ConfigStorage` operations touch: the shared
class-level parser, the contents of the active configuration file at
`ConfigStorage._config_file` (`none` = the file does not exist), and the
rest of the file system as a path → contents map (used by the credential
install). -/
structure World where
  config : ConfigParser
  configFile : Option String
  files : List (String × String)
deriving DecidableEq, Repr

namespace ConfigStorage

/-- `ConfigStorage.save` with no argument (`config.py` lines 101-110):
serializes the full parser state to the active configuration file.  The
parser state itself is not touched.  The function also returns the exact
string written, so that byte-level comparison of successive saves can be
stated.  (The `makedirs` call only creates the parent directory and has no
observable effect on this state.) -/
def save (w : World) : World × String :=
  ({ w with configFile := some w.config.write }, w.config.write)

/-- Result of `ConfigStorage.set`: normal return, or the `KeyError` raised
on line 136 for an unknown setting name. -/
inductive SetOutcome where
  | ok : SetOutcome
  | keyError (name : String) : SetOutcome
deriving DecidableEq, Repr

/-- `ConfigStorage.set` (`config.py` lines 119-136).  `value` is an
`Option String`: `none` models Python `None`, and both `none` and `""` are
falsy under the source's `if not value` test.  The branches mirror the
source exactly:
  * unknown `name` in `section` (or unknown `section`, where the Python
    subscript itself raises) → `KeyError`, state untouched;
  * falsy `value` → normal return, state untouched;
  * value equal to the stored one → normal return, state untouched;
  * otherwise → update the parser entry and call `save()` (write-through). -/
def set (w : World) (name : String) (value : Option String)
    (sec : String) : SetOutcome × World :=
  match w.config.getOpt sec name with
  | some stored =>
    match value with
    | none => (.ok, w)
    | some v =>
      if v = "" then (.ok, w)
      else if stored ≠ v then
        (.ok, (save { w with config := w.config.setValue sec name v }).1)
      else (.ok, w)
  | none => (.keyError name, w)

end ConfigStorage

/-- `ExitCode` from `src/common/exit_codes.py` lines 20-26. -/
inductive ExitCode where
  | success
  | no_net
  | bad_arg
  | file_error
  | user_interrupt
  | exception
deriving DecidableEq, Repr

/-- The numeric component of each `ExitCode` member's value
(`ExitCode.<member>.value[0]`).  This is how the repository's own tests
read the codes (`tests/test_exit_codes.py` asserts on `.value[0]`) and how
the sibling entry points pass them to `exit`
(`exit(exit_code.value[0])`). -/
def ExitCode.toCode : ExitCode → Nat
  | .success => 0
  | .no_net => 1
  | .bad_arg => 2
  | .file_error => 3
  | .user_interrupt => 4
  | .exception => 5

/-- Python `int(...)` applied to an `ExitCode` member.  `ExitCode` is a
plain `aenum.Enum` whose members carry tuple values and whose class
defines no `__int__` or `__index__`, so the conversion never yields a
number: `int(member)` raises `TypeError` for every member. -/
def ExitCode.intOfMember : ExitCode → Option Nat :=
  fun _ => none

/-- The exception (if any) captured by the `except Exception` handler of
`Main.__init__` (`__main__.py` lines 104-105).  `KeyboardInterrupt` derives
from `BaseException`, not `Exception`, so it can never be captured there
and has no constructor here; `other` covers every remaining exception
class, identified by its name. -/
inductive TopException where
  | cannotProceed (code : ExitCode)
  | userCancelled
  | other (name : String)
deriving DecidableEq, Repr

/-- The exit-status classification of `Main.__init__`
(`__main__.py` lines 109-120): start from `success`, then override
according to the captured exception:
`CannotProceed` → the status the condition carries (`exception[1].args[0]`),
`UserCancelled` → `user_interrupt`, anything else → `exception`. -/
def mainExitCode : Option TopException → ExitCode
  | none => .success
  | some (.cannotProceed code) => code
  | some .userCancelled => .user_interrupt
  | some (.other _) => .exception

/-- How a run of `Main.__init__` actually ends: with an operating-system
exit code only when the `int()` conversion succeeds, and otherwise with
the `TypeError` the conversion raises, which propagates uncaught (the
try/except block has already finished by line 134). -/
inductive ProcessEnd where
  | exited (code : Nat)
  | raisedTypeError (member : ExitCode)
deriving DecidableEq, Repr

/-- The final act of `Main.__init__` (`__main__.py` line 134,
`exit(int(exit_code))`): classify the captured exception into an
`ExitCode` member and hand `int(member)` to `exit`. -/
def mainProcessEnd (exc : Option TopException) : ProcessEnd :=
  match (mainExitCode exc).intOfMember with
  | some n => .exited n
  | none => .raisedTypeError (mainExitCode exc)

/-- Outcome of `ConfigCommand.auth` (`config.py` lines 254-299) after
argument parsing: a deliberately raised `CannotProceed`, an exception from
`copy_file` when the source file is missing, or normal completion. -/
inductive AuthOutcome where
  | cannotProceed (code : ExitCode)
  | copyFailed
  | ok
  | raisedKeyError (name : String)
deriving DecidableEq, Repr

/-- `ConfigCommand.auth` (`config.py` lines 277-299), modelled after
argument parsing: `service` is `subargs.service[0]` and `file` is
`subargs.file` (`none` when the positional was omitted).  The branches
mirror lines 286-299: lower-case the service name, reject an unknown
service, a missing file argument, and a file whose name does not end in
`"json"`, each with `CannotProceed(ExitCode.bad_arg)`; otherwise copy the
file's contents to `join(CONFIG_DIR, credentials_filename(service))` and
run `ConfigStorage.set('creds_file', dest_file, service)`. -/
def ConfigCommand.auth (w : World) (service : String) (file : Option String) :
    AuthOutcome × World :=
  let s := strToLower service
  if s ≠ "google" ∧ s ≠ "microsoft" ∧ s ≠ "amazon" then
    (.cannotProceed .bad_arg, w)
  else
    match file with
    | none => (.cannotProceed .bad_arg, w)
    | some f =>
      if ¬ strEndsWith f "json" then (.cannotProceed .bad_arg, w)
      else
        let dest := CONFIG_DIR ++ "/" ++ (credentials_filename s).getD ""
        match findVal w.files f with
        | none => (.copyFailed, w)
        | some content =>
          let w1 : World := { w with files := setKV w.files dest content }
          match ConfigStorage.set w1 "creds_file" (some dest) s with
          | (.ok, w2) => (.ok, w2)
          | (.keyError n, w2) => (.raisedKeyError n, w2)

/-- Outcome of one `Command._invoke_with` call (`command.py` lines 57-74).
`nameErrorRaised` models line 73: in that branch the local name `parser`
is unbound (the parser lives in `self._parser`), so after the `alert` the
interpreter raises `NameError` and the `raise CannotProceed(...)` on line
74 is never reached.  `fellThrough` models the missing `else`: when
`parse_known_args` yields no subcommand the method returns having done
nothing. -/
inductive InvokeOutcome where
  | helpPrinted
  | handlerInvoked (name : String) (args : List String)
  | nameErrorRaised (unrecognized : String)
  | fellThrough
deriving DecidableEq, Repr

/-- `ArgumentParser.parse_known_args` for a parser whose only argument is
one optional positional (`command.py` line 52): the first token not
shaped like an option flag (not starting with `-`) becomes the
subcommand; every other token is returned in the leftover list, in
order. -/
def parseKnownArgs : List String → Option String × List String
  | [] => (none, [])
  | t :: rest =>
    if charListStarts ['-'] t.data then
      ((parseKnownArgs rest).1, t :: (parseKnownArgs rest).2)
    else (some t, rest)

/-- `Command._invoke_with` (`command.py` lines 57-74).  `attrs` is the set
of names for which `hasattr(self, name)` holds on the command object. -/
def Command.invokeWith (attrs : List String) (argList : List String) :
    InvokeOutcome :=
  if argList = [] ∨ argList.head? = some "help" then .helpPrinted
  else
    match parseKnownArgs argList with
    | (some name, args) =>
      if attrs.contains name then .handlerInvoked name args
      else .nameErrorRaised name
    | (none, _) => .fellThrough

/-- The attribute names of a `ConfigCommand` instance (its public command
methods `auth`, `basename`, `help`, `outputdir`, `show`, plus the
underscore attributes set up by `Command.__init__`), for which
`hasattr` answers true. -/
def configCommandAttrs : List String :=
  ["_command", "_invoke_with", "_name", "_parser",
   "auth", "basename", "help", "outputdir", "show"]

/-- The state of the `UI` singleton (`ui.py`): whether `start()` has run,
the internal FIFO queue of pending `(text, style)` pairs, and the
transcript of everything printed to the console so far, in order.
`UI.__new__` (lines 83-101) assigns only `_started`, `_queue` and
`_console`; the `be_quiet` argument is consulted once for the banner
decision and never stored, so the instance has no `_be_quiet`
attribute. -/
structure UIState where
  started : Bool
  queue : List (String × String)
  printed : List (String × String)
deriving DecidableEq, Repr

/-- `UI._print_or_queue` (`ui.py` lines 139-145): print immediately when
started, otherwise push onto the FIFO queue. -/
def UIState.printOrQueue (s : UIState) (text style : String) : UIState :=
  if s.started then { s with printed := s.printed ++ [(text, style)] }
  else { s with queue := s.queue ++ [(text, style)] }

/-- `UI.start` (`ui.py` lines 124-131): drain the queue front to back,
printing each entry, then mark the UI started. -/
def UIState.start (s : UIState) : UIState :=
  { s with printed := s.printed ++ s.queue, queue := [], started := true }

/-- `UI.inform` (`ui.py` lines 148-158).  The gate on line 155 is
`('force' in kwargs and kwargs['force']) or not self._be_quiet`: a truthy
`force` short-circuits the `or` and the message reaches
`_print_or_queue`; otherwise Python evaluates `not self._be_quiet`, and
since `UI.__new__` never assigns `_be_quiet`, that attribute access
raises `AttributeError`. -/
def UIState.inform (s : UIState) (text : String) (force : Bool) :
    Except String UIState :=
  if force then .ok (s.printOrQueue text "info")
  else .error "AttributeError"

/-- `UI.warn` (`ui.py` lines 161-163). -/
def UIState.warn (s : UIState) (text : String) : UIState :=
  s.printOrQueue text "warn"

/-- `UI.alert` (`ui.py` lines 166-168). -/
def UIState.alert (s : UIState) (text : String) : UIState :=
  s.printOrQueue text "alert"

/-- One call made against the UI singleton. -/
inductive UIEvent where
  | informMsg (text : String) (force : Bool)
  | warnMsg (text : String)
  | alertMsg (text : String)
  | startUI
deriving DecidableEq, Repr

/-- Execute one UI call; `inform` may raise. -/
def UIState.step (s : UIState) : UIEvent → Except String UIState
  | .informMsg t force => s.inform t force
  | .warnMsg t => .ok (s.warn t)
  | .alertMsg t => .ok (s.alert t)
  | .startUI => .ok s.start

/-- Execute a sequence of UI calls in order, stopping at the first raised
exception. -/
def UIState.run (s : UIState) : List UIEvent → Except String UIState
  | [] => .ok s
  | e :: rest =>
    match s.step e with
    | .ok s' => UIState.run s' rest
    | .error msg => .error msg

/-- A freshly constructed, not-yet-started UI (`UI.__new__`, `ui.py`
lines 83-101, as constructed by `Main.__init__`). -/
def initUI : UIState :=
  { started := false, queue := [], printed := [] }

/-- C2: evaluation of the top-level exit sequence at the claim's inputs.
The classification in `Main.__init__` does select the members whose
numeric components are 2, 5 and 0 — `bad_arg` for
`CannotProceed(bad_arg)`, `exception` for any other captured
non-interrupt exception, `success` for a run with no exception — but the
final `exit(int(exit_code))` on line 134 raises `TypeError` for every
member, because `ExitCode` is a tuple-valued `aenum.Enum` with no
`__int__`; so no run actually exits with code 2, 5 or 0. -/
theorem c2_exit_conversion_raises_type_error :
    ((mainExitCode (some (TopException.cannotProceed ExitCode.bad_arg))).toCode = 2
      ∧ mainProcessEnd (some (TopException.cannotProceed ExitCode.bad_arg))
          = ProcessEnd.raisedTypeError ExitCode.bad_arg)
    ∧ (∀ name, (mainExitCode (some (TopException.other name))).toCode = 5
        ∧ mainProcessEnd (some (TopException.other name))
            = ProcessEnd.raisedTypeError ExitCode.exception)
    ∧ ((mainExitCode none).toCode = 0
      ∧ mainProcessEnd none = ProcessEnd.raisedTypeError ExitCode.success) :=
  ⟨⟨rfl, rfl⟩, fun _ => ⟨rfl, rfl⟩, rfl, rfl⟩

/-- C5: `ConfigStorage.set` on a name that is unknown in the given section
raises `KeyError` and leaves the whole state (parser, config file, file
system) exactly as it was. -/
theorem c5_unknown_setting_raises_and_preserves (w : World) (name : String)
    (value : Option String) (sec : String)
    (h : w.config.getOpt sec name = none) :
    ConfigStorage.set w name value sec = (ConfigStorage.SetOutcome.keyError name, w) := by
  unfold ConfigStorage.set
  rw [h]

/-- Witness for C5: setting the unknown name `nonexistent` on the default
store raises `KeyError` and changes nothing. -/
theorem c5_unknown_setting_raises_and_preserves_witness :
    (World.mk (ConfigStorage.init ⟨[]⟩) none []).config.getOpt "documentarist" "nonexistent"
      = none
    ∧ ConfigStorage.set (World.mk (ConfigStorage.init ⟨[]⟩) none []) "nonexistent"
        (some "x") "documentarist"
      = (ConfigStorage.SetOutcome.keyError "nonexistent",
         World.mk (ConfigStorage.init ⟨[]⟩) none []) :=
  ⟨by decide,
   c5_unknown_setting_raises_and_preserves
     (World.mk (ConfigStorage.init ⟨[]⟩) none []) "nonexistent" (some "x")
     "documentarist" (by decide)⟩

/-- C6: `ConfigStorage.set` on a known name with an absent (`None`) or
empty value is a no-op: the returned state is the input state, so no
stored value changes and no file write happens. -/
theorem c6_falsy_value_set_is_noop (w : World) (name sec stored : String)
    (h : w.config.getOpt sec name = some stored) :
    ConfigStorage.set w name none sec = (ConfigStorage.SetOutcome.ok, w)
    ∧ ConfigStorage.set w name (some "") sec = (ConfigStorage.SetOutcome.ok, w) := by
  constructor
  · unfold ConfigStorage.set
    rw [h]
  · unfold ConfigStorage.set
    rw [h]
    simp

/-- Witness for C6: a falsy `set` of the known name `basename` on the
default store returns the state untouched. -/
theorem c6_falsy_value_set_is_noop_witness :
    (World.mk (ConfigStorage.init ⟨[]⟩) none []).config.getOpt "documentarist" "basename"
      = some "document"
    ∧ (ConfigStorage.set (World.mk (ConfigStorage.init ⟨[]⟩) none []) "basename"
         none "documentarist"
       = (ConfigStorage.SetOutcome.ok, World.mk (ConfigStorage.init ⟨[]⟩) none [])
      ∧ ConfigStorage.set (World.mk (ConfigStorage.init ⟨[]⟩) none []) "basename"
         (some "") "documentarist"
       = (ConfigStorage.SetOutcome.ok, World.mk (ConfigStorage.init ⟨[]⟩) none [])) :=
  ⟨by decide,
   c6_falsy_value_set_is_noop (World.mk (ConfigStorage.init ⟨[]⟩) none [])
     "basename" "documentarist" "document" (by decide)⟩

/-- C7: `ConfigStorage.save` does not modify the parser state, so two
consecutive saves with no intervening mutation write byte-identical file
contents. -/
theorem c7_save_is_idempotent (w : World) :
    (ConfigStorage.save (ConfigStorage.save w).1).2 = (ConfigStorage.save w).2 := rfl

/-- C4: `ConfigStorage.set` on a known name, with a non-empty value that
differs from the stored one, returns normally, updates the in-memory
value, and immediately writes the full serialized configuration to the
active file (write-through), with no separate `save` call. -/
theorem c4_set_is_write_through (w : World) (name v stored sec : String)
    (hknown : w.config.getOpt sec name = some stored)
    (hne : v ≠ "") (hdiff : stored ≠ v) :
    (ConfigStorage.set w name (some v) sec).1 = ConfigStorage.SetOutcome.ok
    ∧ ((ConfigStorage.set w name (some v) sec).2).config.getOpt sec name = some v
    ∧ ((ConfigStorage.set w name (some v) sec).2).configFile
        = some ((ConfigStorage.set w name (some v) sec).2).config.write := by
  unfold ConfigStorage.set
  rw [hknown]
  simp [hne, hdiff, ConfigStorage.save, getOpt_setValue]

/-- Witness for C4: `set("basename", "photo")` on the default store with
an up-to-date file updates the value to `"photo"` and rewrites the file. -/
theorem c4_set_is_write_through_witness :
    (World.mk (ConfigStorage.init ⟨[]⟩) none []).config.getOpt "documentarist" "basename"
      = some "document"
    ∧ ("photo" : String) ≠ ""
    ∧ ("document" : String) ≠ "photo"
    ∧ ((ConfigStorage.set (World.mk (ConfigStorage.init ⟨[]⟩) none []) "basename"
          (some "photo") "documentarist").1 = ConfigStorage.SetOutcome.ok
       ∧ ((ConfigStorage.set (World.mk (ConfigStorage.init ⟨[]⟩) none []) "basename"
            (some "photo") "documentarist").2).config.getOpt "documentarist" "basename"
          = some "photo"
       ∧ ((ConfigStorage.set (World.mk (ConfigStorage.init ⟨[]⟩) none []) "basename"
            (some "photo") "documentarist").2).configFile
          = some ((ConfigStorage.set (World.mk (ConfigStorage.init ⟨[]⟩) none [])
              "basename" (some "photo") "documentarist").2).config.write) :=
  ⟨by decide, by decide, by decide,
   c4_set_is_write_through (World.mk (ConfigStorage.init ⟨[]⟩) none [])
     "basename" "photo" "document" "documentarist" (by decide) (by decide) (by decide)⟩

/-- C10: constructing a `ConfigStorage` runs `read_dict(DEFAULT_SETTINGS)`
on the single class-level parser that every instance shares, so whatever
the shared state held before — values loaded from a file or set at
runtime — every default-named setting is overwritten with its built-in
default, for every reference to the store. -/
theorem c10_init_overwrites_with_defaults (cfg : ConfigParser) :
    (ConfigStorage.init cfg).getOpt "documentarist" "quiet" = some "False"
    ∧ (ConfigStorage.init cfg).getOpt "documentarist" "debug" = some "False"
    ∧ (ConfigStorage.init cfg).getOpt "documentarist" "basename" = some "document"
    ∧ (ConfigStorage.init cfg).getOpt "documentarist" "outputdir" = some "."
    ∧ (ConfigStorage.init cfg).getOpt "google" "creds_file" = some ""
    ∧ (ConfigStorage.init cfg).getOpt "microsoft" "creds_file" = some ""
    ∧ (ConfigStorage.init cfg).getOpt "amazon" "creds_file" = some "" := by
  unfold ConfigStorage.init ConfigParser.read_dict DEFAULT_SETTINGS
  simp [getOpt_setValue]

/-- The file system for the C3 counterexample: only the default
configuration file exists, and it sets `basename` to `"scan"`. -/
def c3Fs : List (String × IniData) :=
  [(ConfigStorage.config_file, [("documentarist", [("basename", "scan")])])]

/-- C3 counterexample: calling `load` with the explicit path
`/tmp/nonexistent.ini`, which does not exist in the file system, does not
fail at all — the source's `load` has no failure path — and it falls back
to reading the default configuration file: the path handed to
`ConfigParser.read` is `_config_file`, and the value stored there
(`basename = scan`) ends up in the store. -/
theorem c3_counterexample_silent_fallback :
    (ConfigStorage.load c3Fs (some "/tmp/nonexistent.ini")
        (ConfigStorage.init ⟨[]⟩)).2 = ConfigStorage.config_file
    ∧ (ConfigStorage.load c3Fs (some "/tmp/nonexistent.ini")
        (ConfigStorage.init ⟨[]⟩)).1.getOpt "documentarist" "basename" = some "scan" := by
  constructor <;> decide

/-- C3 (amended): for every call to `load` with an explicitly supplied
path that does not exist, `load` raises no condition; it silently falls
back to reading the default configuration file at `_config_file`. -/
theorem c3_amended_explicit_missing_path_falls_back
    (fs : List (String × IniData)) (f : String) (cfg : ConfigParser)
    (hmissing : findSec fs f = none) :
    ConfigStorage.load fs (some f) cfg
      = (ConfigStorage.readPath fs cfg ConfigStorage.config_file,
         ConfigStorage.config_file) := by
  unfold ConfigStorage.load
  simp [hmissing]

/-- Witness for C3 (amended): the concrete missing path from the
counterexample file system. -/
theorem c3_amended_explicit_missing_path_falls_back_witness :
    findSec c3Fs "/tmp/nonexistent.ini" = none
    ∧ ConfigStorage.load c3Fs (some "/tmp/nonexistent.ini") (ConfigStorage.init ⟨[]⟩)
      = (ConfigStorage.readPath c3Fs (ConfigStorage.init ⟨[]⟩) ConfigStorage.config_file,
         ConfigStorage.config_file) :=
  ⟨by decide,
   c3_amended_explicit_missing_path_falls_back c3Fs "/tmp/nonexistent.ini"
     (ConfigStorage.init ⟨[]⟩) (by decide)⟩

/-- C1: evaluation of `Command._invoke_with` on a `ConfigCommand` object
at the inputs where the code and the claim diverge.  On `["zzz"]` (an
unrecognized subcommand) the method raises `NameError` — the local name
`parser` on line 73 is unbound — so no help is printed and the
`CannotProceed(ExitCode.bad_arg)` on line 74 is unreachable; on `["-x"]`
(no positional subcommand at all) the method returns having invoked no
handler, printed no help, and signalled no failure. -/
theorem c1_dispatch_at_failing_inputs :
    Command.invokeWith configCommandAttrs ["zzz"]
      = InvokeOutcome.nameErrorRaised "zzz"
    ∧ Command.invokeWith configCommandAttrs ["-x"] = InvokeOutcome.fellThrough := by
  constructor <;> decide

/-- For the three recognized services, `credentials_filename` is exactly
`<service>_credentials.json`. -/
theorem credentials_filename_of_recognized (s : String)
    (h : s = "google" ∨ s = "microsoft" ∨ s = "amazon") :
    credentials_filename s = some (s ++ "_credentials.json") := by
  rcases h with h | h | h <;> rw [h] <;> decide

/-- A path formed by joining `CONFIG_DIR` with a file name is never the
empty string (needed because `set` treats the empty string as falsy). -/
theorem config_dir_join_ne_empty (x : String) : CONFIG_DIR ++ "/" ++ x ≠ "" := by
  intro hcontra
  have hlen := congrArg String.length hcontra
  rw [String.length_append, String.length_append] at hlen
  have h1 : 0 < CONFIG_DIR.length := by decide
  have h2 : ("/" : String).length = 1 := by decide
  have h3 : ("" : String).length = 0 := by decide
  rw [h2, h3] at hlen
  omega

/-- The deterministic destination path for google credentials,
`join(CONFIG_DIR, credentials_filename("google"))`. -/
def dest8 : String := CONFIG_DIR ++ "/" ++ "google_credentials.json"

/-- The C8 counterexample world: the store's google `creds_file` already
holds the destination path (as it does after any earlier install), but no
configuration file exists on disk. -/
def w8c : World :=
  World.mk ((ConfigStorage.init ⟨[]⟩).setValue "google" "creds_file" dest8)
    none [("creds.json", "SECRET")]

/-- C8 counterexample: re-installing google credentials when `creds_file`
already equals the destination path succeeds, but nothing is persisted.
`ConfigStorage.set` skips `save()` for a value equal to the stored one
(`config.py` lines 129-134), so the configuration file still does not
exist after the install — refuting the claim's unconditional
"updated to that destination path and persisted". -/
theorem c8_counterexample_reinstall_not_persisted :
    (ConfigCommand.auth w8c "google" (some "creds.json")).1 = AuthOutcome.ok
    ∧ (ConfigCommand.auth w8c "google" (some "creds.json")).2.configFile = none := by
  constructor <;> decide

/-- C8 (amended): for a recognized service name and a supplied file with
a json-style name, `ConfigCommand.auth` completes normally, the file's
contents end up at the deterministic destination
`CONFIG_DIR/<service>_credentials.json`, and the `creds_file` setting of
that service's section holds the destination path; the full configuration
is persisted to the active file whenever the destination differs from the
previously stored value, while an already-equal stored value leaves the
configuration file untouched.  The hypotheses say: the service
lower-cases to a recognized name, the supplied file name ends in `json`,
the source file exists with contents `content`, and the shared store
knows the `creds_file` key for that service with current value `old`. -/
theorem c8_amended_auth_installs_credentials (w : World) (service f content old : String)
    (hservice : strToLower service = "google" ∨ strToLower service = "microsoft"
      ∨ strToLower service = "amazon")
    (hjson : strEndsWith f "json" = true)
    (hsrc : findVal w.files f = some content)
    (hkey : w.config.getOpt (strToLower service) "creds_file" = some old) :
    (ConfigCommand.auth w service (some f)).1 = AuthOutcome.ok
    ∧ findVal (ConfigCommand.auth w service (some f)).2.files
        (CONFIG_DIR ++ "/" ++ (strToLower service ++ "_credentials.json")) = some content
    ∧ (ConfigCommand.auth w service (some f)).2.config.getOpt
        (strToLower service) "creds_file"
        = some (CONFIG_DIR ++ "/" ++ (strToLower service ++ "_credentials.json"))
    ∧ (old ≠ CONFIG_DIR ++ "/" ++ (strToLower service ++ "_credentials.json") →
        (ConfigCommand.auth w service (some f)).2.configFile
          = some (ConfigCommand.auth w service (some f)).2.config.write)
    ∧ (old = CONFIG_DIR ++ "/" ++ (strToLower service ++ "_credentials.json") →
        (ConfigCommand.auth w service (some f)).2.configFile = w.configFile) := by
  have hguard : ¬ (strToLower service ≠ "google" ∧ strToLower service ≠ "microsoft"
      ∧ strToLower service ≠ "amazon") := by
    rcases hservice with h | h | h <;> simp [h]
  have hfname : credentials_filename (strToLower service)
      = some (strToLower service ++ "_credentials.json") :=
    credentials_filename_of_recognized _ hservice
  have hdne := config_dir_join_ne_empty (strToLower service ++ "_credentials.json")
  unfold ConfigCommand.auth ConfigStorage.set
  simp only [if_neg hguard, hjson, not_true_eq_false, if_false, hsrc, hfname,
    Option.getD_some, hkey]
  by_cases hod : old = CONFIG_DIR ++ "/" ++ (strToLower service ++ "_credentials.json")
  · simp only [if_neg hdne, hod, ne_eq, not_true_eq_false, if_false]
    refine ⟨trivial, ?_, ?_, ?_, ?_⟩
    · simp [findVal_setKV]
    · simpa [hod] using hkey
    · intro hne
      exact hne.elim
    · intro _
      trivial
  · simp only [if_neg hdne, ne_eq, hod, not_false_eq_true, if_true, ConfigStorage.save]
    refine ⟨trivial, ?_, ?_, ?_, ?_⟩
    · simp [findVal_setKV]
    · simp [getOpt_setValue]
    · intro _
      trivial
    · intro heq
      exact heq.elim

/-- The witness world for C8: the default store, a configuration file in
sync with it, and one source file `creds.json` holding `SECRET`. -/
def w8 : World :=
  World.mk (ConfigStorage.init ⟨[]⟩) (some (ConfigStorage.init ⟨[]⟩).write)
    [("creds.json", "SECRET")]

/-- Witness for C8 (amended): installing `creds.json` for `google` on the
default store (whose `creds_file` is `""`, different from the
destination) copies the contents to `CONFIG_DIR/google_credentials.json`,
records that path in the google section, and persists it. -/
theorem c8_amended_auth_installs_credentials_witness :
    (strToLower "google" = "google" ∨ strToLower "google" = "microsoft"
      ∨ strToLower "google" = "amazon")
    ∧ strEndsWith "creds.json" "json" = true
    ∧ findVal w8.files "creds.json" = some "SECRET"
    ∧ w8.config.getOpt (strToLower "google") "creds_file" = some ""
    ∧ ((ConfigCommand.auth w8 "google" (some "creds.json")).1 = AuthOutcome.ok
       ∧ findVal (ConfigCommand.auth w8 "google" (some "creds.json")).2.files
           (CONFIG_DIR ++ "/" ++ (strToLower "google" ++ "_credentials.json"))
           = some "SECRET"
       ∧ (ConfigCommand.auth w8 "google" (some "creds.json")).2.config.getOpt
           (strToLower "google") "creds_file"
           = some (CONFIG_DIR ++ "/" ++ (strToLower "google" ++ "_credentials.json"))
       ∧ (("" : String) ≠ CONFIG_DIR ++ "/" ++ (strToLower "google" ++ "_credentials.json") →
           (ConfigCommand.auth w8 "google" (some "creds.json")).2.configFile
             = some (ConfigCommand.auth w8 "google" (some "creds.json")).2.config.write)
       ∧ (("" : String) = CONFIG_DIR ++ "/" ++ (strToLower "google" ++ "_credentials.json") →
           (ConfigCommand.auth w8 "google" (some "creds.json")).2.configFile
             = w8.configFile)) :=
  ⟨by decide, by decide, by decide, by decide,
   c8_amended_auth_installs_credentials w8 "google" "creds.json" "SECRET" ""
     (by decide) (by decide) (by decide) (by decide)⟩


/-- C9: evaluation of the UI at the claim's inputs.  A plain
`inform(text)` call (no `force` keyword) raises `AttributeError`,
because `ui.py` line 155 reads `self._be_quiet` and `UI.__new__` never
assigns that attribute.  This happens both before the UI is started,
where the claim says the message is queued, and after `start`, where the
claim says it prints immediately.  The third conjunct shows that `warn`
and `alert` calls made before `start` are queued unprinted and then
flushed by `start` in call order, so the FIFO machinery itself matches
the claim; the claim fails only because it also covers `inform`. -/
theorem c9_inform_raises_attribute_error :
    UIState.run initUI [UIEvent.informMsg "i1" false] = Except.error "AttributeError"
    ∧ UIState.run initUI
        [UIEvent.warnMsg "w1", UIEvent.startUI, UIEvent.informMsg "i2" false]
      = Except.error "AttributeError"
    ∧ UIState.run initUI
        [UIEvent.warnMsg "w1", UIEvent.alertMsg "a1", UIEvent.startUI]
      = Except.ok (UIState.mk true [] [("w1", "warn"), ("a1", "alert")]) :=
  ⟨rfl, rfl, rfl⟩

end Documentarist
